import Mathlib

/-!
Verification of the credential-bootstrap subsystem of k3s
(package deps, the GenServerDeps pipeline) against its natural-language
specification.

The Go source is shallowly embedded: the filesystem is an explicit state
value (an association list from path to structured file content, plus an
instrumentation log of every path opened for writing), and every fallible
Go function becomes a Lean function returning an explicit ok/err result
that also carries the filesystem state at the point of return.
External library helpers (dynamiclistener certutil, client-go keyutil,
the passwd table, clientaccess token parsing) are modelled at the level of
their documented observable behavior; SHA-256 and JSON marshalling are
taken as abstract function parameters, so theorems about them hold for
every choice of those functions.
-/

set_option maxRecDepth 10000

namespace K3s

/-- An x509 certificate, reduced to the fields the bootstrap code inspects:
subject common name and organization, SAN DNS names and IP addresses
(IPs already rendered to their canonical string form), subject and
authority key identifiers, extended key usages, and whether the
certificate is inside the renewal window of the (external) clock. -/
structure Cert where
  commonName : String
  organization : List String := []
  dnsNames : List String := []
  ipAddresses : List String := []
  subjectKeyId : List Nat := []
  authorityKeyId : List Nat := []
  extKeyUsages : List String := []
  isExpired : Bool := false
deriving Repr, DecidableEq

/-- certutil.AltNames: desired SAN DNS names and IP addresses. -/
structure AltNames where
  dnsNames : List String := []
  ips : List String := []
deriving Repr, DecidableEq

/-- One row of the credential table: username, group label, secret. -/
structure PasswdEntry where
  name : String
  group : String
  pass : String
deriving Repr, DecidableEq

/-- apiserverconfigv1.Key: a named base64-encoded symmetric key. -/
structure EncKey where
  name : String
  secret : String
deriving Repr, DecidableEq

/-- apiserverconfigv1.ProviderConfiguration, restricted to the three
provider shapes the bootstrap code constructs. -/
inductive ProviderConfiguration where
  | aescbc (keys : List EncKey)
  | secretbox (keys : List EncKey)
  | identity
deriving Repr, DecidableEq

/-- apiserverconfigv1.ResourceConfiguration. -/
structure ResourceConfiguration where
  resources : List String
  providers : List ProviderConfiguration
deriving Repr, DecidableEq

/-- apiserverconfigv1.EncryptionConfiguration. -/
structure EncryptionConfiguration where
  kind : String
  apiVersion : String
  resources : List ResourceConfiguration
deriving Repr, DecidableEq

/-- The egress-selector cluster connection: direct, or HTTP-connect over
TLS with a proxy URL and the TLS material paths. -/
inductive EgressConn where
  | direct
  | httpConnect (url : String) (caBundle : String) (clientKey : String) (clientCert : String)
deriving Repr, DecidableEq

/-- cloudprovider.Config as serialized by genCloudConfig. -/
structure CloudConfig where
  lbDefaultPriorityClassName : String
  lbEnabled : Bool
  lbNamespace : String
  lbImage : String
  rootless : Bool
  nodeEnabled : Bool
deriving Repr, DecidableEq

/-- The data rendered into a kubeconfig by the fixed template. -/
structure KubeconfigData where
  url : String
  caCert : String
  clientCert : String
  clientKey : String
deriving Repr, DecidableEq

/-- Structured content of one file in the modelled filesystem. Private
keys are identified by the draw of the randomness source that produced
them; a key file holds a list of keys (the service-account key file may
hold several). -/
inductive FileData where
  | certs (cs : List Cert)
  | keys (ks : List Nat)
  | passwd (entries : List PasswdEntry)
  | text (t : String)
  | bytes (b : List Nat)
  | egress (conn : EgressConn)
  | cloud (c : CloudConfig)
  | kubeconfig (k : KubeconfigData)
deriving Repr, DecidableEq

/-- The filesystem state: files by path, an instrumentation log of every
path opened for writing (in order), a log of hard links created, a set of
paths whose removal fails with a non-NotExist error (modelling e.g. a
permission error), a counter supplying fresh random values, and the
current unix time. -/
structure FS where
  files : List (String × FileData) := []
  writes : List String := []
  links : List (String × String) := []
  removeFail : List String := []
  rng : Nat := 0
  nowUnix : Nat := 0
deriving Repr, DecidableEq

/-- Result of a fallible stateful operation: the Go (value, error) pair,
always carrying the filesystem state at the point of return, so that
writes performed before a failure remain observable. -/
inductive Res (α : Type) where
  | ok (a : α) (s : FS)
  | err (msg : String) (s : FS)
deriving Repr, DecidableEq

/-- Error kind distinguished by cleanupLegacyCerts: os.Remove either
reports that the file does not exist, or some other failure. -/
inductive FsError where
  | notExist
  | other
deriving Repr, DecidableEq

namespace FS

/-- Content of the file at a path, if present. -/
def lookup (s : FS) (p : String) : Option FileData :=
  (s.files.find? (fun e => e.1 == p)).map (fun e => e.2)

/-- os.Stat succeeds on a path. -/
def statExists (s : FS) (p : String) : Bool :=
  (s.lookup p).isSome

/-- Replace the content at a path, or append the path if absent. -/
def setFile : List (String × FileData) → String → FileData → List (String × FileData)
  | [], p, d => [(p, d)]
  | (q, e) :: rest, p, d =>
    if q == p then (p, d) :: rest else (q, e) :: setFile rest p d

/-- Open a path for writing and store new content; the path is appended
to the write log. -/
def write (s : FS) (p : String) (d : FileData) : FS :=
  { s with files := setFile s.files p d, writes := s.writes ++ [p] }

/-- Advance the randomness source, yielding a fresh value. -/
def fresh (s : FS) : Nat × FS :=
  (s.rng, { s with rng := s.rng + 1 })

/-- os.Stat reports a strictly positive size. -/
def sizePos : FileData → Bool
  | .text t => !(t == "")
  | .bytes b => !b.isEmpty
  | _ => true

/-- os.Remove: fails with a non-NotExist error on paths in removeFail,
fails with NotExist when the path is absent, otherwise deletes it. -/
def osRemove (s : FS) (p : String) : Option FsError × FS :=
  if s.removeFail.contains p then (some .other, s)
  else if s.statExists p then
    (none, { s with files := s.files.filter (fun e => e.1 != p) })
  else (some .notExist, s)

/-- os.Link src dst: hard-link; fails if src is absent or dst present.
The new directory entry shares the source content; creating a link is
recorded in the link log but is not an open-for-write of the content. -/
def osLink (s : FS) (src dst : String) : Res Unit :=
  match s.lookup src with
  | none => .err "link: no such file" s
  | some d =>
    if s.statExists dst then .err "link: file exists" s
    else .ok () { s with files := s.files ++ [(dst, d)],
                         links := s.links ++ [(src, dst)] }

end FS

/-- The state a Res carries, whether ok or err. -/
def resState {α : Type} : Res α → FS
  | .ok _ s => s
  | .err _ s => s

/-- Whether a Res is ok. -/
def resIsOk {α : Type} : Res α → Bool
  | .ok _ _ => true
  | .err _ _ => false

/-- The value of an ok Res. -/
def resVal {α : Type} : Res α → Option α
  | .ok a _ => some a
  | .err _ _ => none

/-! Constants. Those defined outside the embedded package are modelled
from their documented values: version.Program, the kubernetes user names,
the secretsencrypt provider kinds, the egress-selector mode, and the
cloud-provider defaults. -/

/-- version.Program. -/
def programName : String := "k3s"

/-- user.SystemPrivilegedGroup. -/
def systemPrivilegedGroup : String := "system:masters"

/-- user.KubeControllerManager. -/
def kubeControllerManagerUser : String := "system:kube-controller-manager"

/-- user.KubeScheduler. -/
def kubeSchedulerUser : String := "system:kube-scheduler"

/-- user.APIServerUser. -/
def apiServerUser : String := "system:kube-apiserver"

/-- RequestHeaderCN constant of the package. -/
def RequestHeaderCN : String := "system:auth-proxy"

/-- Modelled from the spec: secretsencrypt.AESCBCProvider, the first of
the two supported symmetric encryption provider kinds (package
secretsencrypt is not part of the embedded sources). -/
def AESCBCProvider : String := "aescbc"

/-- Modelled from the spec: secretsencrypt.SecretBoxProvider, the second
supported symmetric encryption provider kind. -/
def SecretBoxProvider : String := "secretbox"

/-- Modelled from the spec: config.EgressSelectorModeDisabled. -/
def egressSelectorModeDisabled : String := "disabled"

/-- Modelled from the spec: cloudprovider.DefaultLBPriorityClassName. -/
def defaultLBPriorityClassName : String := "system-node-critical"

/-- Modelled from the spec: cloudprovider.DefaultLBImage. -/
def defaultLBImage : String := "klipper-lb"

/-- ipsecTokenSize constant of the package. -/
def ipsecTokenSize : Nat := 48

/-- The declarative control configuration (config.Control), restricted to
the fields the embedded functions read. Loopback and BindAddressOrLoopback
are methods on the Go struct; they are modelled as the strings they
return. -/
structure Control where
  dataDir : String
  token : String := ""
  agentToken : String := ""
  encryptSecrets : Bool := false
  encryptProvider : String := ""
  disableETCD : Bool := false
  sans : List String := []
  clusterDomain : String := ""
  apiServerPort : Nat := 6443
  loopback : String := "127.0.0.1"
  egressSelectorMode : String := ""
  bindAddressOrLoopback : String := "127.0.0.1"
  supervisorPort : Nat := 9345
  disableServiceLB : Bool := false
  serviceLBNamespace : String := ""
  rootless : Bool := false
  disableCCM : Bool := false
  systemDefaultRegistry : String := ""
deriving Repr, DecidableEq

/-- The fixed role-to-path layout (config.ControlRuntime file fields). -/
structure ControlRuntime where
  clientCA : String
  clientCAKey : String
  serverCA : String
  serverCAKey : String
  requestHeaderCA : String
  requestHeaderCAKey : String
  ipsecKey : String
  serviceKey : String
  passwdFile : String
  nodePasswdFile : String
  signingClientCA : String
  signingServerCA : String
  serviceCurrentKey : String
  kubeConfigAdmin : String
  kubeConfigSupervisor : String
  kubeConfigController : String
  kubeConfigScheduler : String
  kubeConfigAPIServer : String
  kubeConfigCloudController : String
  clientAdminCert : String
  clientAdminKey : String
  clientSupervisorCert : String
  clientSupervisorKey : String
  clientControllerCert : String
  clientControllerKey : String
  clientCloudControllerCert : String
  clientCloudControllerKey : String
  clientSchedulerCert : String
  clientSchedulerKey : String
  clientKubeAPICert : String
  clientKubeAPIKey : String
  clientKubeProxyCert : String
  clientKubeProxyKey : String
  clientK3sControllerCert : String
  clientK3sControllerKey : String
  servingKubeAPICert : String
  servingKubeAPIKey : String
  servingKubeSchedulerCert : String
  servingKubeSchedulerKey : String
  servingKubeControllerCert : String
  servingKubeControllerKey : String
  clientKubeletKey : String
  servingKubeletKey : String
  egressSelectorConfig : String
  cloudControllerConfig : String
  clientAuthProxyCert : String
  clientAuthProxyKey : String
  etcdServerCA : String
  etcdServerCAKey : String
  etcdPeerCA : String
  etcdPeerCAKey : String
  serverETCDCert : String
  serverETCDKey : String
  peerServerClientETCDCert : String
  peerServerClientETCDKey : String
  clientETCDCert : String
  clientETCDKey : String
  encryptionConfig : String
  encryptionHash : String
deriving Repr, DecidableEq

/-- filepath.Join of two components. -/
def jp (a b : String) : String := a ++ "/" ++ b

/-- CreateRuntimeCertFiles: fills out every certificate, key, and
configuration path for a data directory. The two encryption paths are set
only when secrets encryption is enabled, as in the source. -/
def CreateRuntimeCertFiles (c : Control) : ControlRuntime :=
  let tls := jp c.dataDir "tls"
  let cred := jp c.dataDir "cred"
  let etc := jp c.dataDir "etc"
  let etcdTls := jp tls "etcd"
  { clientCA := jp tls "client-ca.crt"
    clientCAKey := jp tls "client-ca.key"
    serverCA := jp tls "server-ca.crt"
    serverCAKey := jp tls "server-ca.key"
    requestHeaderCA := jp tls "request-header-ca.crt"
    requestHeaderCAKey := jp tls "request-header-ca.key"
    ipsecKey := jp cred "ipsec.psk"
    serviceKey := jp tls "service.key"
    passwdFile := jp cred "passwd"
    nodePasswdFile := jp cred "node-passwd"
    signingClientCA := jp tls "client-ca.nochain.crt"
    signingServerCA := jp tls "server-ca.nochain.crt"
    serviceCurrentKey := jp tls "service.current.key"
    kubeConfigAdmin := jp cred "admin.kubeconfig"
    kubeConfigSupervisor := jp cred "supervisor.kubeconfig"
    kubeConfigController := jp cred "controller.kubeconfig"
    kubeConfigScheduler := jp cred "scheduler.kubeconfig"
    kubeConfigAPIServer := jp cred "api-server.kubeconfig"
    kubeConfigCloudController := jp cred "cloud-controller.kubeconfig"
    clientAdminCert := jp tls "client-admin.crt"
    clientAdminKey := jp tls "client-admin.key"
    clientSupervisorCert := jp tls "client-supervisor.crt"
    clientSupervisorKey := jp tls "client-supervisor.key"
    clientControllerCert := jp tls "client-controller.crt"
    clientControllerKey := jp tls "client-controller.key"
    clientCloudControllerCert := jp tls ("client-" ++ programName ++ "-cloud-controller.crt")
    clientCloudControllerKey := jp tls ("client-" ++ programName ++ "-cloud-controller.key")
    clientSchedulerCert := jp tls "client-scheduler.crt"
    clientSchedulerKey := jp tls "client-scheduler.key"
    clientKubeAPICert := jp tls "client-kube-apiserver.crt"
    clientKubeAPIKey := jp tls "client-kube-apiserver.key"
    clientKubeProxyCert := jp tls "client-kube-proxy.crt"
    clientKubeProxyKey := jp tls "client-kube-proxy.key"
    clientK3sControllerCert := jp tls ("client-" ++ programName ++ "-controller.crt")
    clientK3sControllerKey := jp tls ("client-" ++ programName ++ "-controller.key")
    servingKubeAPICert := jp tls "serving-kube-apiserver.crt"
    servingKubeAPIKey := jp tls "serving-kube-apiserver.key"
    servingKubeSchedulerCert := jp (jp tls "kube-scheduler") "kube-scheduler.crt"
    servingKubeSchedulerKey := jp (jp tls "kube-scheduler") "kube-scheduler.key"
    servingKubeControllerCert := jp (jp tls "kube-controller-manager") "kube-controller-manager.crt"
    servingKubeControllerKey := jp (jp tls "kube-controller-manager") "kube-controller-manager.key"
    clientKubeletKey := jp tls "client-kubelet.key"
    servingKubeletKey := jp tls "serving-kubelet.key"
    egressSelectorConfig := jp etc "egress-selector-config.yaml"
    cloudControllerConfig := jp etc "cloud-config.yaml"
    clientAuthProxyCert := jp tls "client-auth-proxy.crt"
    clientAuthProxyKey := jp tls "client-auth-proxy.key"
    etcdServerCA := jp etcdTls "server-ca.crt"
    etcdServerCAKey := jp etcdTls "server-ca.key"
    etcdPeerCA := jp etcdTls "peer-ca.crt"
    etcdPeerCAKey := jp etcdTls "peer-ca.key"
    serverETCDCert := jp etcdTls "server-client.crt"
    serverETCDKey := jp etcdTls "server-client.key"
    peerServerClientETCDCert := jp etcdTls "peer-server-client.crt"
    peerServerClientETCDKey := jp etcdTls "peer-server-client.key"
    clientETCDCert := jp etcdTls "client.crt"
    clientETCDKey := jp etcdTls "client.key"
    encryptionConfig := if c.encryptSecrets then jp cred "encryption-config.json" else ""
    encryptionHash := if c.encryptSecrets then jp cred "encryption-state.json" else "" }

/-! Modelled external library helpers. -/

/-- Go exists(files...): every listed path stats successfully. -/
def filesExist (s : FS) (ps : List String) : Bool :=
  ps.all s.statExists

/-- certutil.CertsFromFile: read and parse a PEM certificate bundle;
an unreadable, non-certificate, or empty file is an error. -/
def certsFromFile (s : FS) (p : String) : Res (List Cert) :=
  match s.lookup p with
  | some (.certs cs) => if cs.isEmpty then .err "no certs found" s else .ok cs s
  | some _ => .err "file is not a certificate bundle" s
  | none => .err "no such file" s

/-- Whether certsFromFile succeeds on a path. -/
def certReadable (s : FS) (p : String) : Bool :=
  match certsFromFile s p with
  | .ok _ _ => true
  | .err _ _ => false

/-- certutil.PrivateKeyFromFile: the key in a key file. -/
def privateKeyFromFile (s : FS) (p : String) : Res Nat :=
  match s.lookup p with
  | some (.keys (k :: _)) => .ok k s
  | _ => .err "unable to read private key" s

/-- certutil.LoadOrGenerateKeyFile: reuse the key file when present and
generation is not forced, otherwise draw a fresh key and write it.
Returns the raw key material plus whether it was newly generated. -/
def loadOrGenerateKeyFile (s : FS) (p : String) (force : Bool) : Res (List Nat × Bool) :=
  if !force && s.statExists p then
    match s.lookup p with
    | some (.keys ks) => .ok (ks, false) s
    | _ => .err "invalid key data" s
  else
    let (k, s) := s.fresh
    .ok ([k], true) (s.write p (.keys [k]))

/-- certutil.ParsePrivateKeyPEM on modelled key material. -/
def parsePrivateKeyPEM (ks : List Nat) : Option Nat := ks.head?

/-- certutil.NewSignedCert: a leaf certificate for the given subject and
SANs, whose authority key identifier is the signing CA certificate's
subject key identifier, freshly valid. -/
def newSignedCert (commonName : String) (organization : List String)
    (alt : AltNames) (usages : List String) (key : Nat) (caCert : Cert) : Cert :=
  { commonName := commonName
    organization := organization
    dnsNames := alt.dnsNames
    ipAddresses := alt.ips
    subjectKeyId := [key]
    authorityKeyId := caCert.subjectKeyId
    extKeyUsages := usages
    isExpired := false }

/-- certutil.NewSelfSignedCACert for a common name and key. -/
def newSelfSignedCACert (commonName : String) (key : Nat) : Cert :=
  { commonName := commonName
    subjectKeyId := [key] }

/-- Modelled net.ParseIP composed with rendering back to a string:
strings made only of digits, dots and colons (with at least one dot or
colon) are addresses, anything else is a DNS name. -/
def parseIP (san : String) : Option String :=
  let cs := san.data
  if cs.length != 0
      && cs.all (fun ch => ch.isDigit || ch == '.' || ch == ':')
      && cs.any (fun ch => ch == '.' || ch == ':') then
    some san
  else none

/-- addSANs: sort each configured SAN into the DNS-name or IP list. -/
def addSANs (alt : AltNames) (sans : List String) : AltNames :=
  sans.foldl
    (fun a san =>
      match parseIP san with
      | none => { a with dnsNames := a.dnsNames ++ [san] }
      | some ip => { a with ips := a.ips ++ [ip] })
    alt

/-- Mutual-containment equality of string lists, as sets: the model of
sets.NewString(a).Equal(sets.NewString(b)). -/
def setEqStr (a b : List String) : Bool :=
  a.all (fun x => b.contains x) && b.all (fun x => a.contains x)

/-- Containment of every element of small in big: the model of
sets.NewString(big...).HasAll(small...). -/
def hasAllStr (big small : List String) : Bool :=
  small.all (fun x => big.contains x)

/-- expired: a certificate file is inside the renewal window; any read
error yields false. -/
def expired (s : FS) (certFile : String) : Bool :=
  match certsFromFile s certFile with
  | .err _ _ => false
  | .ok cs _ =>
    match cs with
    | [] => false
    | c :: _ => c.isExpired

/-- fieldsChanged: whether an existing certificate drifted from the
desired common name, organization set (exact set equality), SAN DNS names
and IPs (containment of the desired in the existing), or issuing CA
subject key identifier. Any read error on the certificate or the CA file
yields false at that point. -/
def fieldsChanged (s : FS) (certFile : String) (commonName : String)
    (organization : List String) (sans : Option AltNames) (caCertFile : String) : Bool :=
  let sans := sans.getD {}
  match certsFromFile s certFile with
  | .err _ _ => false
  | .ok cs _ =>
    match cs with
    | [] => false
    | c :: _ =>
      if c.commonName != commonName then true
      else if !setEqStr c.organization organization then true
      else if !hasAllStr c.dnsNames sans.dnsNames then true
      else if !hasAllStr c.ipAddresses sans.ips then true
      else
        match certsFromFile s caCertFile with
        | .err _ _ => false
        | .ok cas _ =>
          match cas with
          | [] => false
          | ca :: _ => c.authorityKeyId != ca.subjectKeyId

/-- createClientCertKey: regenerate when forced, expired, or drifted;
otherwise reuse an existing cert/key pair untouched. On regeneration the
certificate is written concatenated with the CA chain. Returns whether a
new certificate was issued. -/
def createClientCertKey (s : FS) (regen : Bool) (commonName : String)
    (organization : List String) (altNames : Option AltNames)
    (extKeyUsage : List String)
    (caCertFile caKeyFile certFile keyFile : String) : Res Bool :=
  let regen := regen || expired s certFile
      || fieldsChanged s certFile commonName organization altNames caCertFile
  if !regen && filesExist s [certFile, keyFile] then .ok false s
  else
    match privateKeyFromFile s caKeyFile with
    | .err e s => .err e s
    | .ok _caKey s =>
      match certsFromFile s caCertFile with
      | .err e s => .err e s
      | .ok caCerts s =>
        match loadOrGenerateKeyFile s keyFile regen with
        | .err e s => .err e s
        | .ok (keyBytes, _) s =>
          match parsePrivateKeyPEM keyBytes with
          | none => .err "unable to parse private key" s
          | some key =>
            match caCerts with
            | [] => .err "no ca certificate" s
            | caCert :: _ =>
              let cert := newSignedCert commonName organization
                  (altNames.getD {}) extKeyUsage key caCert
              .ok true (s.write certFile (.certs (cert :: caCerts)))

/-- createSigningCertKey: create a self-signed CA under the given paths
unless both files already exist; the CA common name embeds the creation
unix time. Returns whether the CA was created. -/
def createSigningCertKey (s : FS) (caName certFile keyFile : String) : Res Bool :=
  if filesExist s [certFile, keyFile] then .ok false s
  else
    match loadOrGenerateKeyFile s keyFile false with
    | .err e s => .err e s
    | .ok (caKeyBytes, _) s =>
      match parsePrivateKeyPEM caKeyBytes with
      | none => .err "unable to parse ca key" s
      | some caKey =>
        let cert := newSelfSignedCACert (caName ++ "-ca@" ++ toString s.nowUnix) caKey
        .ok true (s.write certFile (.certs [cert]))

/-- createServerSigningCertKey: if the deprecated token-ca files exist
and the server-ca files are absent, hard-link them into place and report
the CA as created; otherwise ensure the server CA normally and also write
the single-certificate signing copy. -/
def createServerSigningCertKey (c : Control) (s : FS) : Res Bool :=
  let rt := CreateRuntimeCertFiles c
  let tokenCA := jp (jp c.dataDir "tls") "token-ca.crt"
  let tokenCAKey := jp (jp c.dataDir "tls") "token-ca.key"
  if filesExist s [tokenCA, tokenCAKey]
      && !s.statExists rt.serverCA && !s.statExists rt.serverCAKey then
    match s.osLink tokenCA rt.serverCA with
    | .err e s => .err e s
    | .ok _ s =>
      match s.osLink tokenCAKey rt.serverCAKey with
      | .err e s => .err e s
      | .ok _ s => .ok true s
  else
    match createSigningCertKey s (programName ++ "-server") rt.serverCA rt.serverCAKey with
    | .err e s => .err e s
    | .ok regen s =>
      match certsFromFile s rt.serverCA with
      | .err e s => .err e s
      | .ok certs s =>
        match certs with
        | [] => .err "no certificate" s
        | c0 :: _ => .ok regen (s.write rt.signingServerCA (.certs [c0]))

/-- KubeConfig: truncate and rewrite the kubeconfig at dest from the
fixed template over the given URL and material paths. -/
def KubeConfig (s : FS) (dest url caCert clientCert clientKey : String) : Res Unit :=
  .ok () (s.write dest (.kubeconfig
    { url := url, caCert := caCert, clientCert := clientCert, clientKey := clientKey }))

/-- The repeated pattern of genClientCerts: issue one client certificate
through the signing factory and rewrite its kubeconfig exactly when the
certificate was newly issued. -/
def clientCertAndKubeConfig (s : FS) (regen : Bool) (commonName : String)
    (organization : List String)
    (caCertFile caKeyFile certFile keyFile dest apiEndpoint serverCA : String) : Res Unit :=
  match createClientCertKey s regen commonName organization none ["client-auth"]
      caCertFile caKeyFile certFile keyFile with
  | .err e s => .err e s
  | .ok certGen s =>
    if certGen then KubeConfig s dest apiEndpoint serverCA certFile keyFile
    else .ok () s

/-- genClientCerts: ensure the client CA and its single-certificate
signing copy, then the six client-role certificates (with kubeconfigs)
and the three key-only client keys. -/
def genClientCerts (c : Control) (s : FS) : Res Unit :=
  let rt := CreateRuntimeCertFiles c
  match createSigningCertKey s (programName ++ "-client") rt.clientCA rt.clientCAKey with
  | .err e s => .err e s
  | .ok regen s =>
    match certsFromFile s rt.clientCA with
    | .err e s => .err e s
    | .ok certs s =>
      match certs with
      | [] => .err "no certificate" s
      | c0 :: _ =>
        let s := s.write rt.signingClientCA (.certs [c0])
        let apiEndpoint := "https://" ++ c.loopback ++ ":" ++ toString c.apiServerPort
        match clientCertAndKubeConfig s regen "system:admin" [systemPrivilegedGroup]
            rt.clientCA rt.clientCAKey rt.clientAdminCert rt.clientAdminKey
            rt.kubeConfigAdmin apiEndpoint rt.serverCA with
        | .err e s => .err e s
        | .ok _ s =>
          match clientCertAndKubeConfig s regen ("system:" ++ programName ++ "-supervisor")
              [systemPrivilegedGroup] rt.clientCA rt.clientCAKey
              rt.clientSupervisorCert rt.clientSupervisorKey
              rt.kubeConfigSupervisor apiEndpoint rt.serverCA with
          | .err e s => .err e s
          | .ok _ s =>
            match clientCertAndKubeConfig s regen kubeControllerManagerUser []
                rt.clientCA rt.clientCAKey rt.clientControllerCert rt.clientControllerKey
                rt.kubeConfigController apiEndpoint rt.serverCA with
            | .err e s => .err e s
            | .ok _ s =>
              match clientCertAndKubeConfig s regen kubeSchedulerUser []
                  rt.clientCA rt.clientCAKey rt.clientSchedulerCert rt.clientSchedulerKey
                  rt.kubeConfigScheduler apiEndpoint rt.serverCA with
              | .err e s => .err e s
              | .ok _ s =>
                match clientCertAndKubeConfig s regen apiServerUser [systemPrivilegedGroup]
                    rt.clientCA rt.clientCAKey rt.clientKubeAPICert rt.clientKubeAPIKey
                    rt.kubeConfigAPIServer apiEndpoint rt.serverCA with
                | .err e s => .err e s
                | .ok _ s =>
                  match loadOrGenerateKeyFile s rt.clientKubeProxyKey regen with
                  | .err e s => .err e s
                  | .ok _ s =>
                    match loadOrGenerateKeyFile s rt.clientK3sControllerKey regen with
                    | .err e s => .err e s
                    | .ok _ s =>
                      match loadOrGenerateKeyFile s rt.clientKubeletKey regen with
                      | .err e s => .err e s
                      | .ok _ s =>
                        clientCertAndKubeConfig s regen
                          (programName ++ "-cloud-controller-manager") []
                          rt.clientCA rt.clientCAKey rt.clientCloudControllerCert
                          rt.clientCloudControllerKey rt.kubeConfigCloudController
                          apiEndpoint rt.serverCA

/-- genServerCerts: ensure the server CA (with legacy token-ca upgrade),
the kube-apiserver serving certificate with the kubernetes service SANs,
the key-only kubelet serving key, and the localhost-only scheduler and
controller-manager serving certificates. -/
def genServerCerts (c : Control) (s : FS) : Res Unit :=
  let rt := CreateRuntimeCertFiles c
  match createServerSigningCertKey c s with
  | .err e s => .err e s
  | .ok regen s =>
    let altNames : AltNames :=
      { dnsNames := ["kubernetes", "kubernetes.default", "kubernetes.default.svc",
                     "kubernetes.default.svc." ++ c.clusterDomain] }
    let altNames := addSANs altNames c.sans
    match createClientCertKey s regen "kube-apiserver" [] (some altNames) ["server-auth"]
        rt.serverCA rt.serverCAKey rt.servingKubeAPICert rt.servingKubeAPIKey with
    | .err e s => .err e s
    | .ok _ s =>
      match loadOrGenerateKeyFile s rt.servingKubeletKey regen with
      | .err e s => .err e s
      | .ok _ s =>
        let altNames2 := addSANs {} ["localhost", "127.0.0.1", "::1"]
        match createClientCertKey s regen "kube-scheduler" [] (some altNames2) ["server-auth"]
            rt.serverCA rt.serverCAKey rt.servingKubeSchedulerCert rt.servingKubeSchedulerKey with
        | .err e s => .err e s
        | .ok _ s =>
          match createClientCertKey s regen "kube-controller-manager" [] (some altNames2)
              ["server-auth"] rt.serverCA rt.serverCAKey
              rt.servingKubeControllerCert rt.servingKubeControllerKey with
          | .err e s => .err e s
          | .ok _ s => .ok () s

/-- genETCDCerts: ensure the etcd-server and etcd-peer CAs, the etcd
client certificate, and the peer-server-client certificate; the etcd
server certificate is skipped when etcd is disabled. -/
def genETCDCerts (c : Control) (s : FS) : Res Unit :=
  let rt := CreateRuntimeCertFiles c
  match createSigningCertKey s "etcd-server" rt.etcdServerCA rt.etcdServerCAKey with
  | .err e s => .err e s
  | .ok _regen s =>
    let altNames := addSANs { dnsNames := ["kine.sock"] } c.sans
    match createClientCertKey s _regen "etcd-client" [] none ["client-auth"]
        rt.etcdServerCA rt.etcdServerCAKey rt.clientETCDCert rt.clientETCDKey with
    | .err e s => .err e s
    | .ok _ s =>
      match createSigningCertKey s "etcd-peer" rt.etcdPeerCA rt.etcdPeerCAKey with
      | .err e s => .err e s
      | .ok regen s =>
        match createClientCertKey s regen "etcd-peer" [] (some altNames)
            ["server-auth", "client-auth"]
            rt.etcdPeerCA rt.etcdPeerCAKey
            rt.peerServerClientETCDCert rt.peerServerClientETCDKey with
        | .err e s => .err e s
        | .ok _ s =>
          if c.disableETCD then .ok () s
          else
            match createClientCertKey s regen "etcd-server" [] (some altNames)
                ["server-auth", "client-auth"]
                rt.etcdServerCA rt.etcdServerCAKey
                rt.serverETCDCert rt.serverETCDKey with
            | .err e s => .err e s
            | .ok _ s => .ok () s

/-- genRequestHeaderCerts: ensure the request-header CA and the
auth-proxy client certificate. -/
def genRequestHeaderCerts (c : Control) (s : FS) : Res Unit :=
  let rt := CreateRuntimeCertFiles c
  match createSigningCertKey s (programName ++ "-request-header")
      rt.requestHeaderCA rt.requestHeaderCAKey with
  | .err e s => .err e s
  | .ok regen s =>
    match createClientCertKey s regen RequestHeaderCN [] none ["client-auth"]
        rt.requestHeaderCA rt.requestHeaderCAKey
        rt.clientAuthProxyCert rt.clientAuthProxyKey with
    | .err e s => .err e s
    | .ok _ s => .ok () s

/-- genCerts: the four certificate families in order. -/
def genCerts (c : Control) (s : FS) : Res Unit :=
  match genClientCerts c s with
  | .err e s => .err e s
  | .ok _ s =>
    match genServerCerts c s with
    | .err e s => .err e s
    | .ok _ s =>
      match genRequestHeaderCerts c s with
      | .err e s => .err e s
      | .ok _ s => genETCDCerts c s

/-- The loop body of cleanupLegacyCerts: remove each listed path,
treating a missing file as success and any other failure as fatal. -/
def removeIgnoringNotExist (s : FS) : List String → Res Unit
  | [] => .ok () s
  | p :: rest =>
    match s.osRemove p with
    | (some .other, s) => .err "remove failed" s
    | (_, s) => removeIgnoringNotExist s rest

/-- cleanupLegacyCerts: remove the two deprecated client certificates. -/
def cleanupLegacyCerts (c : Control) (s : FS) : Res Unit :=
  let rt := CreateRuntimeCertFiles c
  removeIgnoringNotExist s [rt.clientKubeProxyCert, rt.clientK3sControllerCert]

/-- genServiceAccount: create the service-account signing key if absent,
then always rewrite the current-key file from the first key in the
(possibly multi-key) signing key file. -/
def genServiceAccount (rt : ControlRuntime) (s : FS) : Res Unit :=
  let s :=
    if !s.statExists rt.serviceKey then
      let (k, s) := s.fresh
      s.write rt.serviceKey (.keys [k])
    else s
  match s.lookup rt.serviceKey with
  | some (.keys (k :: _)) => .ok () (s.write rt.serviceCurrentKey (.keys [k]))
  | _ => .err "unable to read service key" s

/-! Credential table. Modelled from the spec: the passwd package (not in
the embedded sources) keeps a flat table keyed by username with idempotent
upsert, reads an absent file as an empty table, and serializes the whole
table back on write. -/

/-- Modelled from the spec: passwd.Pass, the secret of a user if any. -/
def passwdPass (entries : List PasswdEntry) (name : String) : Option String :=
  (entries.find? (fun e => e.name == name)).map (fun e => e.pass)

/-- Modelled from the spec: passwd.EnsureUser, an idempotent upsert of
(name, group, secret) keyed by name, on a table carrying a dirty flag:
inserting a new entry or updating an existing one with different values
marks the table changed; re-applying identical values leaves the table,
and its flag, untouched. -/
def ensureUser (t : List PasswdEntry × Bool) (name group pass : String) :
    List PasswdEntry × Bool :=
  match t.1.find? (fun e => e.name == name) with
  | some e =>
    if e.group == group && e.pass == pass then t
    else
      (t.1.map (fun e => if e.name == name then { e with group := group, pass := pass } else e),
       true)
  | none => (t.1 ++ [{ name := name, group := group, pass := pass }], true)

/-- Modelled from the spec: passwd.Read, an absent file reads as the
empty table. -/
def passwdRead (s : FS) (p : String) : Res (List PasswdEntry) :=
  match s.lookup p with
  | none => .ok [] s
  | some (.passwd es) => .ok es s
  | some _ => .err "invalid passwd file" s

/-- Modelled from the spec: passwd.Write serializes the table back only
when some entry was mutated since the read; with no mutation it is a
no-op and the file is not opened for writing. -/
def passwdWrite (s : FS) (p : String) (t : List PasswdEntry × Bool) : Res Unit :=
  if t.2 then .ok () (s.write p (.passwd t.1)) else .ok () s

/-- util.Random n: a fresh random token (hex of n random bytes),
modelled as a string derived from the next draw of the randomness
source. -/
def randomToken (n : Nat) (s : FS) : String × FS :=
  let (k, s) := s.fresh
  ("random-" ++ toString n ++ "-" ++ toString k, s)

/-- Split a character list on a separator. -/
def splitListOn (sep : Char) : List Char → List (List Char)
  | [] => [[]]
  | c :: rest =>
    let r := splitListOn sep rest
    if c == sep then [] :: r
    else
      match r with
      | [] => [[c]]
      | g :: gs => (c :: g) :: gs

/-- The characters after the first double-colon, if any. -/
def afterDoubleColon : List Char → Option (List Char)
  | [] => none
  | ':' :: ':' :: rest => some rest
  | _ :: rest => afterDoubleColon rest

/-- Modelled from the spec: clientaccess.ParseUsernamePassword (package
clientaccess is not in the embedded sources) splits a cluster token of
the form K10hash::username:password or username:password into its
username and password portions; a token without the credential separator
does not parse. -/
def parseUsernamePassword (token : String) : Option (String × String) :=
  let cs := token.data
  let creds := (afterDoubleColon cs).getD cs
  match splitListOn ':' creds with
  | [u, p] => some (String.mk u, String.mk p)
  | _ => none

/-- migratePassword: promote a legacy node-only table by deriving the
server entry from the node secret; a no-op once a server secret exists. -/
def migratePassword (t : List PasswdEntry × Bool) : List PasswdEntry × Bool :=
  let server := (passwdPass t.1 "server").getD ""
  let node := (passwdPass t.1 "node").getD ""
  if server == "" && node != "" then
    ensureUser t "server" (programName ++ ":server") node
  else t

/-- getServerPass: prefer the configured token, then the stored server
secret, then a fresh random token. -/
def getServerPass (entries : List PasswdEntry) (c : Control) (s : FS) : String × FS :=
  let serverPass := c.token
  let serverPass := if serverPass == "" then (passwdPass entries "server").getD "" else serverPass
  if serverPass == "" then randomToken 16 s else (serverPass, s)

/-- getNodePass: the configured agent token if any; otherwise the
password portion of the server token, falling back to the server token
itself when it does not parse as username:password. -/
def getNodePass (c : Control) (serverPass : String) : String :=
  if c.agentToken == "" then
    match parseUsernamePassword serverPass with
    | some (_, pass) => pass
    | none => serverPass
  else c.agentToken

/-- genUsers: read the table, run the legacy migration, resolve the
server and node secrets, upsert both entries, and write the table back. -/
def genUsers (c : Control) (s : FS) : Res Unit :=
  let rt := CreateRuntimeCertFiles c
  match passwdRead s rt.passwdFile with
  | .err e s => .err e s
  | .ok entries s =>
    let t := migratePassword (entries, false)
    let (serverPass, s) := getServerPass t.1 c s
    let nodePass := getNodePass c serverPass
    let t := ensureUser t "node" (programName ++ ":agent") nodePass
    let t := ensureUser t "server" (programName ++ ":server") serverPass
    passwdWrite s rt.passwdFile t

/-- genEncryptedNetworkInfo: reuse a non-empty pre-shared key file,
otherwise generate and write one. -/
def genEncryptedNetworkInfo (c : Control) (s : FS) : Res Unit :=
  let rt := CreateRuntimeCertFiles c
  match s.lookup rt.ipsecKey with
  | some d =>
    if FS.sizePos d then .ok () s
    else
      let (psk, s) := randomToken ipsecTokenSize s
      .ok () (s.write rt.ipsecKey (.text (psk ++ "\n")))
  | none =>
    let (psk, s) := randomToken ipsecTokenSize s
    .ok () (s.write rt.ipsecKey (.text (psk ++ "\n")))

/-- Raw bytes read back from a modelled file, for hashing an existing
encryption configuration: opaque byte files yield their bytes, text
files their character codes. -/
def rawBytes : FileData → List Nat
  | .bytes b => b
  | .text t => t.data.map Char.toNat
  | _ => []

/-- The encryption configuration document built on first enablement: a
single resource entry for secrets whose provider list is the chosen
symmetric provider (holding one named key derived from the random draw k)
followed by the identity provider. -/
def mkEncryptionConfig (provider : String) (keyName : String) (k : Nat) : EncryptionConfiguration :=
  let newKey : List EncKey := [{ name := keyName, secret := "base64-" ++ toString k }]
  let providers : List ProviderConfiguration :=
    if provider == AESCBCProvider then [.aescbc newKey, .identity]
    else if provider == SecretBoxProvider then [.secretbox newKey, .identity]
    else []
  { kind := "EncryptionConfiguration"
    apiVersion := "apiserver.config.k8s.io/v1"
    resources := [{ resources := ["secrets"], providers := providers }] }

/-- genEncryptionConfigAndState: no-op when encryption is disabled;
reject an unsupported provider before touching any file; when a non-empty
configuration exists, backfill only a missing hash record from the
existing bytes; otherwise write a fresh configuration and its hash
record. The JSON serializer and the hex-encoded SHA-256 are abstract
function parameters. -/
def genEncryptionConfigAndState
    (marshalEnc : EncryptionConfiguration → List Nat)
    (sha256hex : List Nat → String)
    (c : Control) (s : FS) : Res Unit :=
  let rt := CreateRuntimeCertFiles c
  if !c.encryptSecrets then .ok () s
  else
    match (if c.encryptProvider == AESCBCProvider then some "aescbckey"
           else if c.encryptProvider == SecretBoxProvider then some "secretboxkey"
           else none) with
    | none => .err ("unsupported secrets-encryption-key-type " ++ c.encryptProvider) s
    | some keyName =>
      if (s.lookup rt.encryptionConfig).elim false FS.sizePos then
        if !s.statExists rt.encryptionHash then
          match s.lookup rt.encryptionConfig with
          | some d =>
            .ok () (s.write rt.encryptionHash
              (.text ("start-" ++ sha256hex (rawBytes d))))
          | none => .err "unable to read encryption config" s
        else .ok () s
      else
        let (k, s) := s.fresh
        let encConfig := mkEncryptionConfig c.encryptProvider keyName k
        let b := marshalEnc encConfig
        let s := s.write rt.encryptionConfig (.bytes b)
        .ok () (s.write rt.encryptionHash (.text ("start-" ++ sha256hex b)))

/-- genEgressSelectorConfig: a direct cluster connection when the egress
selector is disabled, otherwise HTTP-connect through the supervisor with
the server CA and the apiserver client material; rewritten every run. -/
def genEgressSelectorConfig (c : Control) (s : FS) : Res Unit :=
  let rt := CreateRuntimeCertFiles c
  let clusterConn : EgressConn :=
    if c.egressSelectorMode == egressSelectorModeDisabled then .direct
    else .httpConnect
      ("https://" ++ c.bindAddressOrLoopback ++ ":" ++ toString c.supervisorPort)
      rt.serverCA rt.clientKubeAPIKey rt.clientKubeAPICert
  .ok () (s.write rt.egressSelectorConfig (.egress clusterConn))

/-- genCloudConfig: the cloud-provider flags document; rewritten every
run. -/
def genCloudConfig (c : Control) (s : FS) : Res Unit :=
  let rt := CreateRuntimeCertFiles c
  let lbImage :=
    if c.systemDefaultRegistry != "" then c.systemDefaultRegistry ++ "/" ++ defaultLBImage
    else defaultLBImage
  let cloudConfig : CloudConfig :=
    { lbDefaultPriorityClassName := defaultLBPriorityClassName
      lbEnabled := !c.disableServiceLB
      lbNamespace := c.serviceLBNamespace
      lbImage := lbImage
      rootless := c.rootless
      nodeEnabled := !c.disableCCM }
  .ok () (s.write rt.cloudControllerConfig (.cloud cloudConfig))

/-- readTokens: read the credential table back into the runtime-facing
agent and server token fields. -/
def readTokens (rt : ControlRuntime) (s : FS) : Res (Option String × Option String) :=
  match passwdRead s rt.passwdFile with
  | .err e s => .err e s
  | .ok entries s =>
    let agentToken := (passwdPass entries "node").map (fun t => "node:" ++ t)
    let serverToken := (passwdPass entries "server").map (fun t => "server:" ++ t)
    .ok (agentToken, serverToken) s

/-- GenServerDeps: the full bootstrap sequence, each step fatal on
error. -/
def GenServerDeps
    (marshalEnc : EncryptionConfiguration → List Nat)
    (sha256hex : List Nat → String)
    (c : Control) (s : FS) : Res (Option String × Option String) :=
  let rt := CreateRuntimeCertFiles c
  match cleanupLegacyCerts c s with
  | .err e s => .err e s
  | .ok _ s =>
    match genCerts c s with
    | .err e s => .err e s
    | .ok _ s =>
      match genServiceAccount rt s with
      | .err e s => .err e s
      | .ok _ s =>
        match genUsers c s with
        | .err e s => .err e s
        | .ok _ s =>
          match genEncryptedNetworkInfo c s with
          | .err e s => .err e s
          | .ok _ s =>
            match genEncryptionConfigAndState marshalEnc sha256hex c s with
            | .err e s => .err e s
            | .ok _ s =>
              match genEgressSelectorConfig c s with
              | .err e s => .err e s
              | .ok _ s =>
                match genCloudConfig c s with
                | .err e s => .err e s
                | .ok _ s => readTokens rt s

/-! Concrete bootstrap scenarios used by the closed theorems below. -/

/-- A serializer instance for scenarios that never reach the encryption
manager (secrets encryption disabled). -/
def marshalEnc0 : EncryptionConfiguration → List Nat := fun _ => []

/-- A hash instance for scenarios that never reach the encryption
manager. -/
def sha256hex0 : List Nat → String := fun _ => ""

/-- A plain server configuration: fresh data directory, no cluster or
agent token, encryption disabled, etcd enabled, no extra SANs. -/
def bootControl : Control :=
  { dataDir := "d"
    clusterDomain := "cluster.local"
    egressSelectorMode := egressSelectorModeDisabled
    serviceLBNamespace := "kube-system" }

/-- The runtime path layout of the plain configuration. -/
def bootRT : ControlRuntime := CreateRuntimeCertFiles bootControl

/-- First full bootstrap on an empty data directory. -/
def firstRun : Res (Option String × Option String) :=
  GenServerDeps marshalEnc0 sha256hex0 bootControl {}

/-- The filesystem after the first run, with the write log cleared so the
second run's writes can be observed in isolation. -/
def afterFirstRun : FS := { resState firstRun with writes := [] }

/-- Second full bootstrap against the unchanged configuration and data
directory. -/
def secondRun : Res (Option String × Option String) :=
  GenServerDeps marshalEnc0 sha256hex0 bootControl afterFirstRun

/-- The plain configuration with etcd disabled. -/
def etcdControl : Control := { bootControl with disableETCD := true }

/-- The etcd certificate bootstrap on an empty data directory with etcd
disabled. -/
def etcdRun : Res Unit := genETCDCerts etcdControl {}

/-- A legacy token CA certificate. -/
def tokCert : Cert := { commonName := "legacy-token-ca@0", subjectKeyId := [99] }

/-- A data directory holding only the deprecated token-ca files. -/
def legacyFS : FS :=
  { files := [("d/tls/token-ca.crt", .certs [tokCert]), ("d/tls/token-ca.key", .keys [7])] }

/-- The server CA bootstrap over the legacy layout. -/
def legacyRun : Res Bool := createServerSigningCertKey bootControl legacyFS

/-- The credential-table bootstrap on an empty data directory. -/
def usersRun : Res Unit := genUsers bootControl {}

/-- The credential table produced by usersRun. -/
def usersTable : List PasswdEntry :=
  match (resState usersRun).lookup bootRT.passwdFile with
  | some (.passwd es) => es
  | _ => []

/-- A demonstration CA certificate. -/
def demoCA : Cert := { commonName := "demo-ca@0", subjectKeyId := [1] }

/-- A demonstration leaf certificate issued by demoCA. -/
def demoLeaf : Cert :=
  { commonName := "leaf"
    organization := ["o1"]
    dnsNames := ["a.example"]
    ipAddresses := ["10.0.0.1"]
    subjectKeyId := [2]
    authorityKeyId := [1] }

/-- A small filesystem holding the demonstration CA and leaf. -/
def demoFS : FS :=
  { files := [("ca.crt", .certs [demoCA]), ("ca.key", .keys [1]),
              ("leaf.crt", .certs [demoLeaf]), ("leaf.key", .keys [2])] }

/-- The plain configuration with aescbc secrets encryption enabled. -/
def encControl : Control :=
  { bootControl with encryptSecrets := true, encryptProvider := AESCBCProvider }

/-- A data directory already holding a non-empty encryption configuration
but no hash record. -/
def encNoHashFS : FS := { files := [("d/cred/encryption-config.json", .bytes [1, 2])] }

/-- A data directory already holding a non-empty encryption configuration
and its hash record. -/
def encBothFS : FS :=
  { files := [("d/cred/encryption-config.json", .bytes [1, 2]),
              ("d/cred/encryption-state.json", .text "start-old")] }

/-- The plain configuration with an unsupported encryption provider. -/
def badEncControl : Control :=
  { bootControl with encryptSecrets := true, encryptProvider := "rc4" }

/-- A fresh issuance of a new leaf under the demonstration CA. -/
def demoIssue : Res Bool :=
  createClientCertKey demoFS true "cn2" [] none ["client-auth"]
    "ca.crt" "ca.key" "new.crt" "new.key"

/-! Helper lemmas. -/

lemma setEqStr_iff (a b : List String) : setEqStr a b = true ↔ a ⊆ b ∧ b ⊆ a := by
  simp [setEqStr, List.all_eq_true, List.elem_iff, List.subset_def]

lemma hasAllStr_iff (big small : List String) :
    hasAllStr big small = true ↔ ∀ x ∈ small, x ∈ big := by
  simp [hasAllStr, List.all_eq_true, List.elem_iff]

lemma certsFromFile_ok {s : FS} {p : String} {c : Cert} {cs : List Cert}
    (h : s.lookup p = some (.certs (c :: cs))) : certsFromFile s p = .ok (c :: cs) s := by
  simp [certsFromFile, h]

/-- Claim C4: for a readable certificate whose common name matches and
whose authority key identifier matches the readable CA, fieldsChanged
fires exactly when the organization differs as a set (any symmetric
difference), or some desired SAN DNS name or IP is absent from the
certificate (containment, extra entries tolerated). -/
theorem fieldsChanged_org_exact_san_containment
    (s : FS) (certFile caFile : String) (c ca : Cert) (chain cachain : List Cert)
    (org : List String) (sans : AltNames)
    (hcert : s.lookup certFile = some (.certs (c :: chain)))
    (hca : s.lookup caFile = some (.certs (ca :: cachain)))
    (haki : c.authorityKeyId = ca.subjectKeyId) :
    fieldsChanged s certFile c.commonName org (some sans) caFile = true ↔
      (¬ (c.organization ⊆ org ∧ org ⊆ c.organization))
      ∨ (∃ d ∈ sans.dnsNames, d ∉ c.dnsNames)
      ∨ (∃ ip ∈ sans.ips, ip ∉ c.ipAddresses) := by
  have h1 := certsFromFile_ok hcert
  have h2 := certsFromFile_ok hca
  simp only [fieldsChanged, h1, h2, Option.getD_some]
  cases horg : setEqStr c.organization org with
  | false =>
    have : ¬ (c.organization ⊆ org ∧ org ⊆ c.organization) := by
      intro hsub
      rw [← setEqStr_iff] at hsub
      simp [hsub] at horg
    simp [horg, this]
  | true =>
    have horg' := (setEqStr_iff _ _).mp horg
    cases hdns : hasAllStr c.dnsNames sans.dnsNames with
    | false =>
      have : ∃ d ∈ sans.dnsNames, d ∉ c.dnsNames := by
        by_contra hall
        push_neg at hall
        have : hasAllStr c.dnsNames sans.dnsNames = true :=
          (hasAllStr_iff _ _).mpr hall
        simp [this] at hdns
      simp [horg, hdns, this]
    | true =>
      have hdns' := (hasAllStr_iff _ _).mp hdns
      cases hips : hasAllStr c.ipAddresses sans.ips with
      | false =>
        have : ∃ ip ∈ sans.ips, ip ∉ c.ipAddresses := by
          by_contra hall
          push_neg at hall
          have : hasAllStr c.ipAddresses sans.ips = true :=
            (hasAllStr_iff _ _).mpr hall
          simp [this] at hips
        simp [horg, hdns, hips, this]
      | true =>
        have hips' := (hasAllStr_iff _ _).mp hips
        simp [horg, hdns, hips, haki, horg']
        constructor
        · intro d hd
          exact hdns' d hd
        · intro ip hip
          exact hips' ip hip

/-- Witness for C4 at a concrete certificate: a desired DNS name absent
from the existing SANs triggers regeneration. -/
theorem fieldsChanged_org_exact_san_containment_witness :
    fieldsChanged demoFS "leaf.crt" "leaf" ["o1"]
      (some { dnsNames := ["b.example"], ips := [] }) "ca.crt" = true :=
  (fieldsChanged_org_exact_san_containment demoFS "leaf.crt" "ca.crt"
      demoLeaf demoCA [] [] ["o1"] { dnsNames := ["b.example"], ips := [] }
      rfl rfl rfl).mpr
    (Or.inr (Or.inl ⟨"b.example", by simp, by simp [demoLeaf]⟩))

/-- Claim C5: an unreadable or unparseable certificate file yields false
from both the expiry check and the drift check; an unreadable CA file
likewise yields no signal once the earlier field checks pass. -/
theorem unreadable_cert_no_signal
    (s : FS) (certFile caFile cn : String) (org : List String) (sans : Option AltNames) :
    (certReadable s certFile = false →
      expired s certFile = false ∧ fieldsChanged s certFile cn org sans caFile = false)
    ∧ (∀ c chain, s.lookup certFile = some (.certs (c :: chain)) →
        c.commonName = cn → setEqStr c.organization org = true →
        hasAllStr c.dnsNames (sans.getD {}).dnsNames = true →
        hasAllStr c.ipAddresses (sans.getD {}).ips = true →
        certReadable s caFile = false →
        fieldsChanged s certFile cn org sans caFile = false) := by
  constructor
  · intro hunread
    cases h : certsFromFile s certFile with
    | ok cs s' =>
      exfalso
      simp [certReadable, h] at hunread
    | err e s' =>
      constructor
      · simp [expired, h]
      · simp [fieldsChanged, h]
  · intro c chain hcert hcn horg hdns hips hcaunread
    have h1 := certsFromFile_ok hcert
    cases h2 : certsFromFile s caFile with
    | ok cs s' =>
      exfalso
      simp [certReadable, h2] at hcaunread
    | err e s' =>
      simp [fieldsChanged, h1, h2, hcn, horg, hdns, hips]

/-- Witness for C5: a missing certificate file gives no signal, and a
readable matching leaf with a missing CA file gives no signal either. -/
theorem unreadable_cert_no_signal_witness :
    (expired demoFS "absent.crt" = false
      ∧ fieldsChanged demoFS "absent.crt" "leaf" ["o1"] none "ca.crt" = false)
    ∧ fieldsChanged demoFS "leaf.crt" "leaf" ["o1"] none "absent-ca.crt" = false :=
  ⟨(unreadable_cert_no_signal demoFS "absent.crt" "ca.crt" "leaf" ["o1"] none).1 rfl,
   (unreadable_cert_no_signal demoFS "leaf.crt" "absent-ca.crt" "leaf" ["o1"] none).2
     demoLeaf [] rfl rfl rfl rfl rfl rfl⟩

/-- Claim C7: an enabled but unsupported encryption provider is rejected
with an error before any file is written: the returned filesystem is the
input filesystem, unchanged. -/
theorem unsupported_provider_rejected
    (marshalEnc : EncryptionConfiguration → List Nat) (sha256hex : List Nat → String)
    (c : Control) (s : FS)
    (hEnc : c.encryptSecrets = true)
    (hA : c.encryptProvider ≠ AESCBCProvider)
    (hB : c.encryptProvider ≠ SecretBoxProvider) :
    genEncryptionConfigAndState marshalEnc sha256hex c s =
      .err ("unsupported secrets-encryption-key-type " ++ c.encryptProvider) s := by
  have ha : (c.encryptProvider == AESCBCProvider) = false := beq_eq_false_iff_ne.mpr hA
  have hb : (c.encryptProvider == SecretBoxProvider) = false := beq_eq_false_iff_ne.mpr hB
  simp [genEncryptionConfigAndState, hEnc, ha, hb]

/-- Witness for C7 at a concrete unsupported provider. -/
theorem unsupported_provider_rejected_witness :
    genEncryptionConfigAndState marshalEnc0 sha256hex0 badEncControl {} =
      .err ("unsupported secrets-encryption-key-type " ++ badEncControl.encryptProvider) {} :=
  unsupported_provider_rejected marshalEnc0 sha256hex0 badEncControl {}
    rfl (by decide) (by decide)

/-- Claim C6: with encryption enabled and a supported provider, a fresh
bootstrap writes a configuration whose provider list is exactly the
chosen symmetric provider followed by the identity provider, and a hash
record holding the literal prefix start- followed by the hex SHA-256 of
the exact serialized bytes; an existing non-empty configuration is left
alone except that a missing hash record is backfilled from the existing
bytes with the same convention; with both present the manager is a
no-op. -/
theorem encryption_bootstrap_and_backfill
    (marshalEnc : EncryptionConfiguration → List Nat) (sha256hex : List Nat → String)
    (c : Control) (s : FS)
    (hEnc : c.encryptSecrets = true)
    (hProv : c.encryptProvider = AESCBCProvider ∨ c.encryptProvider = SecretBoxProvider) :
    (let rt := CreateRuntimeCertFiles c
     let keyName := if c.encryptProvider == AESCBCProvider then "aescbckey" else "secretboxkey"
     let doc := mkEncryptionConfig c.encryptProvider keyName s.rng
     let b := marshalEnc doc
     ((s.lookup rt.encryptionConfig).elim false FS.sizePos = false →
        genEncryptionConfigAndState marshalEnc sha256hex c s =
          .ok () ((FS.write { s with rng := s.rng + 1 } rt.encryptionConfig (.bytes b)).write
            rt.encryptionHash (.text ("start-" ++ sha256hex b)))
        ∧ (∃ ks, doc.resources = [ResourceConfiguration.mk ["secrets"]
             (if c.encryptProvider = AESCBCProvider
               then [.aescbc ks, .identity]
               else [.secretbox ks, .identity])]))
     ∧ ((s.lookup rt.encryptionConfig).elim false FS.sizePos = true →
          s.statExists rt.encryptionHash = false →
          ∃ d, s.lookup rt.encryptionConfig = some d ∧
            genEncryptionConfigAndState marshalEnc sha256hex c s =
              .ok () (s.write rt.encryptionHash (.text ("start-" ++ sha256hex (rawBytes d)))))
     ∧ ((s.lookup rt.encryptionConfig).elim false FS.sizePos = true →
          s.statExists rt.encryptionHash = true →
          genEncryptionConfigAndState marshalEnc sha256hex c s = .ok () s)) := by
  have hprov2 : (c.encryptProvider == AESCBCProvider) = true
      ∨ ((c.encryptProvider == AESCBCProvider) = false
          ∧ (c.encryptProvider == SecretBoxProvider) = true) := by
    rcases hProv with hP | hP
    · exact Or.inl (by simp [hP])
    · refine Or.inr ⟨?_, by simp [hP]⟩
      rw [hP]
      decide
  refine ⟨?_, ?_, ?_⟩
  · intro hcond
    rcases hprov2 with ⟨ha⟩ | ⟨ha, hb⟩
    · constructor
      · simp only [genEncryptionConfigAndState, hEnc, ha, Bool.not_true, if_true, if_false,
          Bool.false_eq_true, reduceIte, hcond, FS.fresh]
      · refine ⟨[{ name := "aescbckey", secret := "base64-" ++ toString s.rng }], ?_⟩
        have hp : c.encryptProvider = AESCBCProvider := by
          exact eq_of_beq ha
        simp [mkEncryptionConfig, ha, hp]
    · constructor
      · simp only [genEncryptionConfigAndState, hEnc, ha, hb, Bool.not_true, if_true, if_false,
          Bool.false_eq_true, reduceIte, hcond, FS.fresh]
      · refine ⟨[{ name := "secretboxkey", secret := "base64-" ++ toString s.rng }], ?_⟩
        have hp : c.encryptProvider = SecretBoxProvider := eq_of_beq hb
        have hne : ¬ (c.encryptProvider = AESCBCProvider) := by
          rw [hp]; decide
        simp [mkEncryptionConfig, ha, hb, hne]
  · intro hcond hhash
    cases hl : FS.lookup s (CreateRuntimeCertFiles c).encryptionConfig with
    | none => simp [hl] at hcond
    | some d =>
      refine ⟨d, rfl, ?_⟩
      have hsize : FS.sizePos d = true := by
        rw [hl] at hcond
        simpa using hcond
      rcases hprov2 with ⟨ha⟩ | ⟨ha, hb⟩
      · simp only [genEncryptionConfigAndState, hEnc, ha, Bool.not_true, Bool.false_eq_true,
          reduceIte, hl, Option.elim_some, hsize, if_true, hhash, Bool.not_false]
      · simp only [genEncryptionConfigAndState, hEnc, ha, hb, Bool.not_true, Bool.false_eq_true,
          reduceIte, hl, Option.elim_some, hsize, if_true, hhash, Bool.not_false]
  · intro hcond hhash
    rcases hprov2 with ⟨ha⟩ | ⟨ha, hb⟩
    · simp only [genEncryptionConfigAndState, hEnc, ha, Bool.not_true, Bool.false_eq_true,
        reduceIte, hcond, hhash, Bool.not_true, if_false]
    · simp only [genEncryptionConfigAndState, hEnc, ha, hb, Bool.not_true, Bool.false_eq_true,
        reduceIte, hcond, hhash, Bool.not_true, if_false]

/-- Witness for C6: the three branches exercised at concrete states with
a concrete serializer and hash function. -/
theorem encryption_bootstrap_and_backfill_witness :
    (genEncryptionConfigAndState marshalEnc0 sha256hex0 encControl {} =
      .ok () ((FS.write { ({} : FS) with rng := 1 } "d/cred/encryption-config.json" (.bytes []))
        |>.write "d/cred/encryption-state.json" (.text "start-"))
      ∧ (∃ ks, (mkEncryptionConfig encControl.encryptProvider "aescbckey" 0).resources =
          [ResourceConfiguration.mk ["secrets"] [.aescbc ks, .identity]]))
    ∧ (∃ d, FS.lookup encNoHashFS "d/cred/encryption-config.json" = some d ∧
        genEncryptionConfigAndState marshalEnc0 sha256hex0 encControl encNoHashFS =
          .ok () (encNoHashFS.write "d/cred/encryption-state.json" (.text "start-")))
    ∧ genEncryptionConfigAndState marshalEnc0 sha256hex0 encControl encBothFS =
        .ok () encBothFS := by
  have h0 := encryption_bootstrap_and_backfill marshalEnc0 sha256hex0 encControl {}
    rfl (Or.inl rfl)
  have h1 := encryption_bootstrap_and_backfill marshalEnc0 sha256hex0 encControl encNoHashFS
    rfl (Or.inl rfl)
  have h2 := encryption_bootstrap_and_backfill marshalEnc0 sha256hex0 encControl encBothFS
    rfl (Or.inl rfl)
  refine ⟨?_, ?_, ?_⟩
  · have := h0.1 rfl
    rcases this with ⟨heq, hks⟩
    exact ⟨heq, hks⟩
  · rcases h1.2.1 rfl rfl with ⟨d, hd, heq⟩
    exact ⟨d, hd, heq⟩
  · exact h2.2.2 rfl rfl

lemma createClientCertKey_reuse {s s1 : FS} {regen : Bool} {cn : String}
    {org : List String} {alt : Option AltNames} {usages : List String}
    {caC caK certF keyF : String}
    (h : createClientCertKey s regen cn org alt usages caC caK certF keyF = .ok false s1) :
    s1 = s := by
  unfold createClientCertKey at h
  by_cases hguard : (!(regen || expired s certF || fieldsChanged s certF cn org alt caC)
      && filesExist s [certF, keyF]) = true
  · rw [if_pos hguard] at h
    cases h
    rfl
  · rw [if_neg hguard] at h
    split at h
    all_goals try split at h
    all_goals try split at h
    all_goals try split at h
    all_goals try split at h
    all_goals cases h

/-- Claim C8: for a client role with a kubeconfig, the kubeconfig is
truncated and rewritten exactly when the referenced client certificate
was newly issued; when the existing certificate is reused the whole step
returns the input filesystem unchanged. -/
theorem kubeconfig_rewritten_iff_cert_issued
    (s s1 : FS) (regen g : Bool) (cn : String) (org : List String)
    (caC caK certF keyF dest api serverCA : String)
    (h : createClientCertKey s regen cn org none ["client-auth"] caC caK certF keyF
      = .ok g s1) :
    (g = true →
      clientCertAndKubeConfig s regen cn org caC caK certF keyF dest api serverCA =
        .ok () (s1.write dest (.kubeconfig
          { url := api, caCert := serverCA, clientCert := certF, clientKey := keyF })))
    ∧ (g = false →
      clientCertAndKubeConfig s regen cn org caC caK certF keyF dest api serverCA = .ok () s
        ∧ s1 = s) := by
  constructor
  · intro hg
    subst hg
    simp [clientCertAndKubeConfig, h, KubeConfig]
  · intro hg
    subst hg
    have hs := createClientCertKey_reuse h
    subst hs
    constructor
    · simp [clientCertAndKubeConfig, h]
    · rfl

/-- Witness for C8: a newly issued certificate rewrites the kubeconfig at
its destination. -/
theorem kubeconfig_rewritten_iff_cert_issued_witness :
    clientCertAndKubeConfig demoFS true "cn2" [] "ca.crt" "ca.key" "new.crt" "new.key"
        "kc" "https://u:1" "sca.crt" =
      .ok () ((resState demoIssue).write "kc" (.kubeconfig
        { url := "https://u:1", caCert := "sca.crt", clientCert := "new.crt",
          clientKey := "new.key" })) :=
  (kubeconfig_rewritten_iff_cert_issued demoFS (resState demoIssue) true true "cn2" []
      "ca.crt" "ca.key" "new.crt" "new.key" "kc" "https://u:1" "sca.crt" rfl).1 rfl

lemma find?_filter_ne (l : List (String × FileData)) (p q : String) (h : q ≠ p) :
    (l.filter (fun e => e.1 != p)).find? (fun e => e.1 == q)
      = l.find? (fun e => e.1 == q) := by
  induction l with
  | nil => rfl
  | cons a t ih =>
    by_cases hap : a.1 = p
    · have h1 : (a.1 != p) = false := by simp [hap]
      have h2 : (a.1 == q) = false := by
        simp only [beq_eq_false_iff_ne, ne_eq, hap]
        exact fun hh => h hh.symm
      simp [List.filter_cons, h1, List.find?, h2, ih]
    · have h1 : (a.1 != p) = true := by simp [hap]
      by_cases haq : a.1 = q
      · have h2 : (a.1 == q) = true := by simp [haq]
        simp [List.filter_cons, h1, List.find?, h2]
      · have h2 : (a.1 == q) = false := by simp [haq]
        simp [List.filter_cons, h1, List.find?, h2, ih]

lemma find?_filter_self (l : List (String × FileData)) (p : String) :
    (l.filter (fun e => e.1 != p)).find? (fun e => e.1 == p) = none := by
  induction l with
  | nil => rfl
  | cons a t ih =>
    by_cases hap : a.1 = p
    · have h1 : (a.1 != p) = false := by simp [hap]
      simp [List.filter_cons, h1, ih]
    · have h1 : (a.1 != p) = true := by simp [hap]
      have h2 : (a.1 == p) = false := by simp [hap]
      simp [List.filter_cons, h1, List.find?, h2, ih]

lemma find?_filter_none (l : List (String × FileData)) (f : String × FileData → Bool)
    (q : String) (h : l.find? (fun e => e.1 == q) = none) :
    (l.filter f).find? (fun e => e.1 == q) = none := by
  induction l with
  | nil => rfl
  | cons a t ih =>
    by_cases haq : (a.1 == q) = true
    · simp [List.find?, haq] at h
    · have h' : t.find? (fun e => e.1 == q) = none := by
        simpa [List.find?, haq] using h
      by_cases hf : f a = true
      · simp [List.filter_cons, hf, List.find?, haq, ih h']
      · simp [List.filter_cons, hf, ih h']

lemma osRemove_spec (s : FS) (p : String) (h : s.removeFail.contains p = false) :
    (s.osRemove p).1 ≠ some FsError.other
    ∧ (s.osRemove p).2.lookup p = none
    ∧ (∀ q, q ≠ p → (s.osRemove p).2.lookup q = s.lookup q)
    ∧ (s.osRemove p).2.writes = s.writes
    ∧ (s.osRemove p).2.removeFail = s.removeFail := by
  have hc : ¬ (s.removeFail.contains p = true) := by rw [h]; simp
  unfold FS.osRemove
  rw [if_neg hc]
  by_cases hex : s.statExists p = true
  · rw [if_pos hex]
    refine ⟨by simp, ?_, ?_, rfl, rfl⟩
    · simp [FS.lookup, find?_filter_self]
    · intro q hq
      simp [FS.lookup, find?_filter_ne s.files p q hq]
  · rw [if_neg hex]
    refine ⟨by simp, ?_, fun q hq => rfl, rfl, rfl⟩
    unfold FS.statExists at hex
    cases hl : s.lookup p with
    | none => rfl
    | some d => rw [hl] at hex; simp at hex

lemma osRemove_lookup_none (s : FS) (p q : String) (h : s.lookup q = none) :
    (s.osRemove p).2.lookup q = none := by
  unfold FS.osRemove
  by_cases h1 : s.removeFail.contains p = true
  · rw [if_pos h1]; exact h
  · rw [if_neg h1]
    by_cases h2 : s.statExists p = true
    · rw [if_pos h2]
      unfold FS.lookup at h ⊢
      cases hf : s.files.find? (fun e => e.1 == q) with
      | none => simp [find?_filter_none s.files _ q hf]
      | some e => rw [hf] at h; simp at h
    · rw [if_neg h2]; exact h

lemma osRemove_writes (s : FS) (p : String) : (s.osRemove p).2.writes = s.writes := by
  unfold FS.osRemove
  by_cases h1 : s.removeFail.contains p = true
  · rw [if_pos h1]
  · rw [if_neg h1]
    by_cases h2 : s.statExists p = true
    · rw [if_pos h2]
    · rw [if_neg h2]

lemma removeIgnoringNotExist_cons (s : FS) (p : String) (rest : List String) :
    removeIgnoringNotExist s (p :: rest) =
      match s.osRemove p with
      | (some .other, t) => .err "remove failed" t
      | (_, t) => removeIgnoringNotExist t rest := rfl

lemma removeIgnoringNotExist_err_writes (ps : List String) :
    ∀ (s : FS) (e : String) (s' : FS),
    removeIgnoringNotExist s ps = .err e s' → s'.writes = s.writes := by
  induction ps with
  | nil =>
    intro s e s' h
    simp [removeIgnoringNotExist] at h
  | cons p rest ih =>
    intro s e s' h
    rw [removeIgnoringNotExist_cons] at h
    rcases hr : s.osRemove p with ⟨o, t⟩
    rw [hr] at h
    have hw : t.writes = s.writes := by
      have := osRemove_writes s p
      rw [hr] at this
      exact this
    cases o with
    | none => exact (ih t e s' h).trans hw
    | some fe =>
      cases fe with
      | notExist => exact (ih t e s' h).trans hw
      | other => cases h; exact hw

/-- Claim C9: the legacy-cleanup step removes exactly the client
kube-proxy and client controller certificates (every other path is
untouched and nothing is opened for writing), treats absent files as
success, and runs first: if a removal fails with anything other than
NotExist, the whole bootstrap aborts with that error and with the write
log unchanged. -/
theorem legacy_cleanup_exact_and_first
    (marshalEnc : EncryptionConfiguration → List Nat) (sha256hex : List Nat → String)
    (c : Control) (s : FS) :
    (s.removeFail.contains (CreateRuntimeCertFiles c).clientKubeProxyCert = false →
     s.removeFail.contains (CreateRuntimeCertFiles c).clientK3sControllerCert = false →
     ∃ s', cleanupLegacyCerts c s = .ok () s'
       ∧ s'.lookup (CreateRuntimeCertFiles c).clientKubeProxyCert = none
       ∧ s'.lookup (CreateRuntimeCertFiles c).clientK3sControllerCert = none
       ∧ (∀ q, q ≠ (CreateRuntimeCertFiles c).clientKubeProxyCert →
           q ≠ (CreateRuntimeCertFiles c).clientK3sControllerCert →
           s'.lookup q = s.lookup q)
       ∧ s'.writes = s.writes)
    ∧ (∀ e s', cleanupLegacyCerts c s = .err e s' →
        GenServerDeps marshalEnc sha256hex c s = .err e s' ∧ s'.writes = s.writes) := by
  constructor
  · intro h1 h2
    obtain ⟨hno1, hlp1, hlq1, hw1, hrf1⟩ :=
      osRemove_spec s (CreateRuntimeCertFiles c).clientKubeProxyCert h1
    rcases hr1 : s.osRemove (CreateRuntimeCertFiles c).clientKubeProxyCert with ⟨o1, t1⟩
    rw [hr1] at hno1 hlp1 hlq1 hw1 hrf1
    have h2' : t1.removeFail.contains (CreateRuntimeCertFiles c).clientK3sControllerCert
        = false := by rw [hrf1]; exact h2
    obtain ⟨hno2, hlp2, hlq2, hw2, hrf2⟩ :=
      osRemove_spec t1 (CreateRuntimeCertFiles c).clientK3sControllerCert h2'
    rcases hr2 : t1.osRemove (CreateRuntimeCertFiles c).clientK3sControllerCert with ⟨o2, t2⟩
    rw [hr2] at hno2 hlp2 hlq2 hw2 hrf2
    refine ⟨t2, ?_, ?_, hlp2, ?_, ?_⟩
    · unfold cleanupLegacyCerts
      rw [removeIgnoringNotExist_cons, hr1]
      cases o1 with
      | some fe =>
        cases fe with
        | other => exact absurd rfl hno1
        | notExist =>
          show removeIgnoringNotExist t1 [(CreateRuntimeCertFiles c).clientK3sControllerCert]
            = Res.ok () t2
          rw [removeIgnoringNotExist_cons, hr2]
          cases o2 with
          | some fe2 =>
            cases fe2 with
            | other => exact absurd rfl hno2
            | notExist => rfl
          | none => rfl
      | none =>
        show removeIgnoringNotExist t1 [(CreateRuntimeCertFiles c).clientK3sControllerCert]
          = Res.ok () t2
        rw [removeIgnoringNotExist_cons, hr2]
        cases o2 with
        | some fe2 =>
          cases fe2 with
          | other => exact absurd rfl hno2
          | notExist => rfl
        | none => rfl
    · have := osRemove_lookup_none t1 (CreateRuntimeCertFiles c).clientK3sControllerCert
        (CreateRuntimeCertFiles c).clientKubeProxyCert hlp1
      rw [hr2] at this
      exact this
    · intro q hq1 hq2
      exact (hlq2 q hq2).trans (hlq1 q hq1)
    · rw [hw2, hw1]
  · intro e s' herr
    constructor
    · unfold GenServerDeps
      rw [herr]
    · unfold cleanupLegacyCerts at herr
      exact removeIgnoringNotExist_err_writes _ s e s' herr

/-- Witness for C9: both legacy certificates present are removed with no
other change, and a failing removal aborts the whole bootstrap. -/
theorem legacy_cleanup_exact_and_first_witness :
    (∃ s', cleanupLegacyCerts bootControl
        { files := [("d/tls/client-kube-proxy.crt", .text "a"),
                    ("d/tls/client-k3s-controller.crt", .text "b")] } = .ok () s'
      ∧ s'.lookup bootRT.clientKubeProxyCert = none
      ∧ s'.lookup bootRT.clientK3sControllerCert = none)
    ∧ (∃ e s', GenServerDeps marshalEnc0 sha256hex0 bootControl
        { removeFail := ["d/tls/client-kube-proxy.crt"] } = .err e s'
        ∧ FS.writes s' = []) := by
  constructor
  · obtain ⟨s', hok, hl1, hl2, _, _⟩ :=
      (legacy_cleanup_exact_and_first marshalEnc0 sha256hex0 bootControl
        { files := [("d/tls/client-kube-proxy.crt", .text "a"),
                    ("d/tls/client-k3s-controller.crt", .text "b")] }).1 rfl rfl
    exact ⟨s', hok, hl1, hl2⟩
  · obtain ⟨habort, hw⟩ :=
      (legacy_cleanup_exact_and_first marshalEnc0 sha256hex0 bootControl
        { removeFail := ["d/tls/client-kube-proxy.crt"] }).2 "remove failed"
        { removeFail := ["d/tls/client-kube-proxy.crt"] } rfl
    exact ⟨"remove failed", { removeFail := ["d/tls/client-kube-proxy.crt"] }, habort, hw⟩

/-- Counterexample to C1 as stated: the cloud-provider configuration file
is written by the first bootstrap run and opened for writing again by the
second run against the unchanged configuration and data directory, so the
second run does not rewrite zero files. -/
theorem second_run_reopens_a_file :
    resIsOk firstRun = true
    ∧ resIsOk secondRun = true
    ∧ (resState firstRun).writes.contains bootRT.cloudControllerConfig = true
    ∧ (resState secondRun).writes.contains bootRT.cloudControllerConfig = true :=
  ⟨rfl, rfl, rfl, rfl⟩

/-- Claim C1 as amended: the second bootstrap run leaves every
certificate, key, kubeconfig, and credential artifact untouched except
for five unconditional rewrites — the two single-certificate signing-CA
copies, the service-account current-key file, and the egress-selector
and cloud-provider configuration files — and every rewrite carries
content identical to the first run, so the on-disk state after the
second run is byte-identical to the state after the first. -/
theorem second_run_rewrites_only_derived_files :
    resIsOk secondRun = true
    ∧ (resState secondRun).writes =
        [bootRT.signingClientCA, bootRT.signingServerCA, bootRT.serviceCurrentKey,
         bootRT.egressSelectorConfig, bootRT.cloudControllerConfig]
    ∧ ((resState secondRun).files == (resState firstRun).files) = true :=
  ⟨rfl, rfl, rfl⟩

/-- Counterexample to C2 as stated: with the legacy token-ca files
present and the server-ca files absent, createServerSigningCertKey
returns wasCreated equal to true, not false. -/
theorem legacy_link_signals_created :
    resVal legacyRun = some true ∧ resVal legacyRun ≠ some false :=
  ⟨rfl, by simp [show resVal legacyRun = some true from rfl]⟩

/-- Claim C2 as amended: the legacy path hard-links the token-ca
certificate and key to the server-ca paths, preserving the cryptographic
identity without opening any file for writing, and returns wasCreated
equal to true — so this path does force downstream leaf certificate
regeneration. -/
theorem legacy_link_preserves_identity :
    resVal legacyRun = some true
    ∧ (resState legacyRun).links =
        [("d/tls/token-ca.crt", bootRT.serverCA), ("d/tls/token-ca.key", bootRT.serverCAKey)]
    ∧ (resState legacyRun).lookup bootRT.serverCA
        = (resState legacyRun).lookup "d/tls/token-ca.crt"
    ∧ (resState legacyRun).lookup bootRT.serverCAKey
        = (resState legacyRun).lookup "d/tls/token-ca.key"
    ∧ (resState legacyRun).writes = [] :=
  ⟨rfl, rfl, rfl, rfl, rfl⟩

/-- Counterexample to C3 as stated: after one bootstrap of the credential
table on a fresh data directory with no cluster token and no agent token,
the node and server entries both exist but hold the same secret, so the
node secret is not independently generated. -/
theorem node_secret_equals_server_secret :
    resIsOk usersRun = true
    ∧ (passwdPass usersTable "node").isSome = true
    ∧ (passwdPass usersTable "server").isSome = true
    ∧ passwdPass usersTable "node" = passwdPass usersTable "server" :=
  ⟨rfl, rfl, rfl, rfl⟩

/-- Claim C3 as amended: the credential table contains a node entry and a
server entry, but their secrets are not independent: with no agent token
configured the node entry reuses the server secret, because getNodePass
falls back to the server token (or its password portion) when no agent
token is set. -/
theorem node_secret_reuses_server_secret :
    usersTable =
      [{ name := "node", group := "k3s:agent", pass := "random-16-0" },
       { name := "server", group := "k3s:server", pass := "random-16-0" }]
    ∧ getNodePass bootControl "random-16-0" = "random-16-0" :=
  ⟨rfl, rfl⟩

/-- Claim C10: with etcd disabled, the etcd bootstrap still creates the
etcd-server CA, the etcd-peer CA, the etcd client certificate, and the
peer-server-client certificate (each with its key), and skips exactly the
etcd server certificate and key. -/
theorem etcd_disabled_skips_only_server_cert :
    resIsOk etcdRun = true
    ∧ (resState etcdRun).writes =
        [(CreateRuntimeCertFiles etcdControl).etcdServerCAKey,
         (CreateRuntimeCertFiles etcdControl).etcdServerCA,
         (CreateRuntimeCertFiles etcdControl).clientETCDKey,
         (CreateRuntimeCertFiles etcdControl).clientETCDCert,
         (CreateRuntimeCertFiles etcdControl).etcdPeerCAKey,
         (CreateRuntimeCertFiles etcdControl).etcdPeerCA,
         (CreateRuntimeCertFiles etcdControl).peerServerClientETCDKey,
         (CreateRuntimeCertFiles etcdControl).peerServerClientETCDCert]
    ∧ (resState etcdRun).writes.contains (CreateRuntimeCertFiles etcdControl).serverETCDCert
        = false
    ∧ (resState etcdRun).writes.contains (CreateRuntimeCertFiles etcdControl).serverETCDKey
        = false :=
  ⟨rfl, rfl, rfl, rfl⟩

end K3s
